import Mathlib

/-!
Verification of the gifocrextractor frame-to-text pipeline.

Shallow embedding of `src/utils/ocr_engine.py` (per-frame OCR, batch OCR with
cross-frame aggregation) and `src/utils/image_processor.py` (frame extraction
with enhancement).  External effects (filesystem, the tesseract binary, PIL)
are modelled by explicit environment records whose fields record the outcome
of each effectful call the Python code makes.
-/

namespace GifOcr

/-- Python's `s.startswith(pre)`: character-level prefix test. -/
def pyStartsWith (s pre : String) : Bool :=
  decide (s.data.take pre.length = pre.data)

/-- Python's `s.strip()`: drop leading and trailing whitespace. -/
def pyStrip (s : String) : String :=
  String.mk (((s.data.dropWhile Char.isWhitespace).reverse.dropWhile Char.isWhitespace).reverse)

/-- Python's `max(w :: ws, key=len)`: the first element of maximal length
(`max` keeps the current best on ties, so the earliest maximal element wins). -/
def pyMaxByLen (w : String) (ws : List String) : String :=
  ws.foldl (fun best x => if x.length > best.length then x else best) w

/-! ## Per-frame OCR: `perform_ocr_on_frame` (ocr_engine.py lines 97-178) -/

/-- Outcome of one `pytesseract.image_to_string` call: a returned string, or a
raised exception (which the code swallows, excluding that attempt). -/
inductive AttemptResult where
  | ok (text : String)
  | raised
deriving DecidableEq, Repr

/-- Environment of one `perform_ocr_on_frame` call: outcomes of the
`check_tesseract` probe, the file checks, `Image.open`, the three recognition
attempts, and whether an unexpected exception escapes the inner logic. -/
structure FrameEnv where
  tesseractAvailable : Bool
  unexpectedFailure : Bool
  fileExists : Bool
  fileSize : Nat
  imageOpens : Bool
  openErrMsg : String
  attempt1 : AttemptResult
  attempt2 : AttemptResult
  attempt3 : AttemptResult
deriving DecidableEq, Repr

/-- `if textN.strip(): results.append(textN.strip())` for one attempt. -/
def attemptCandidate (a : AttemptResult) : List String :=
  match a with
  | .ok t => if pyStrip t = "" then [] else [pyStrip t]
  | .raised => []

/-- The `results` list accumulated over the three attempts, in attempt order. -/
def collectResults (e : FrameEnv) : List String :=
  attemptCandidate e.attempt1 ++ attemptCandidate e.attempt2 ++ attemptCandidate e.attempt3

/-- `perform_ocr_on_frame`: precondition checks, three best-effort attempts,
then `max(results, key=len)` or the `"No text detected"` sentinel. -/
def perform_ocr_on_frame (e : FrameEnv) : String :=
  if !e.tesseractAvailable then "Error: Tesseract OCR is not available"
  else if e.unexpectedFailure then "Error: OCR processing failed for this frame"
  else if !e.fileExists then "Error: Frame file not found"
  else if e.fileSize = 0 then "Error: Frame file is empty"
  else if !e.imageOpens then "Error: Invalid image file: " ++ e.openErrMsg
  else
    match collectResults e with
    | [] => "No text detected"
    | w :: ws => pyMaxByLen w ws

/-! ## Batch OCR: `perform_ocr_on_frames` (ocr_engine.py lines 180-279) -/

/-- One element of the returned `ocr_results` list. -/
structure OcrRecord where
  frame_number : Nat
  frame_path : String
  text : String
deriving DecidableEq, Repr

/-- Outcome of the `perform_ocr_on_frame(frame_path)` call made by the batch
loop: a returned text, or an unexpected raised exception. -/
inductive FrameCall where
  | returns (text : String)
  | raises
deriving DecidableEq, Repr

/-- The record appended for frame `idx` (0-based): the returned text, or the
generic error sentinel when the per-frame call raised. -/
def frameRecord (idx : Nat) (path : String) (c : FrameCall) : OcrRecord :=
  match c with
  | .returns t => { frame_number := idx + 1, frame_path := path, text := t }
  | .raises =>
      { frame_number := idx + 1, frame_path := path,
        text := "Error: OCR processing failed. Please try a different image." }

/-- The real (per-frame) records produced by the batch loop, in input order. -/
def realOcrRecords (frames : List (String × FrameCall)) : List OcrRecord :=
  frames.enum.map (fun p => frameRecord p.1 p.2.1 p.2.2)

/-- The loop's per-record classification (`Error:` prefix / empty / success). -/
inductive TextClass where
  | err
  | empty
  | success
deriving DecidableEq, Repr

/-- `if text.startswith("Error:") ... elif not text or text == "No text detected" ... else`. -/
def classifyText (t : String) : TextClass :=
  if pyStartsWith t "Error:" then .err
  else if t = "" || t = "No text detected" then .empty
  else .success

/-- The loop's `success_count` tally. -/
def successCount (recs : List OcrRecord) : Nat :=
  (recs.filter (fun r => decide (classifyText r.text = TextClass.success))).length

/-- `" ".join(r['text'] for r in ocr_results if not r['text'].startswith("Error:") and r['text'] != "No text detected")`. -/
def combinedText (recs : List OcrRecord) : String :=
  String.intercalate " "
    ((recs.filter (fun r => !pyStartsWith r.text "Error:" && r.text != "No text detected")).map
      (fun r => r.text))

/-- Maximal runs of consecutive alphanumeric characters (accumulator holds the
current run reversed), as matched by the regex `[A-Za-z0-9]{3,}` before its
length bound. -/
def alnumRuns : List Char → List Char → List (List Char)
  | [], cur => if cur.isEmpty then [] else [cur.reverse]
  | c :: cs, cur =>
      if c.isAlphanum then alnumRuns cs (c :: cur)
      else if cur.isEmpty then alnumRuns cs [] else cur.reverse :: alnumRuns cs []

/-- `re.findall(r'[A-Za-z0-9]{3,}', s)`: maximal alphanumeric runs of length ≥ 3. -/
def findWords (s : String) : List String :=
  ((alnumRuns s.data []).filter (fun w => 3 ≤ w.length)).map (fun w => String.mk w)

/-- The cross-frame aggregation step (lines 238-259): at most one synthetic
`combined_analysis` record, produced when the longest word has length ≥ 4. -/
def combinedAnalysisRecords (n : Nat) (recs : List OcrRecord) : List OcrRecord :=
  match findWords (combinedText recs) with
  | [] => []
  | w :: ws =>
      let longest := pyMaxByLen w ws
      if 4 ≤ longest.length then
        [{ frame_number := n + 1, frame_path := "combined_analysis",
           text := "Combined analysis: Found text pattern '" ++ longest ++ "'" }]
      else []

/-- `perform_ocr_on_frames` normal path: one record per input path in order,
then the optional synthetic aggregation record when `success_count > 0`. -/
def perform_ocr_on_frames (frames : List (String × FrameCall)) : List OcrRecord :=
  if frames.isEmpty then []
  else
    let recs := realOcrRecords frames
    if 0 < successCount recs then recs ++ combinedAnalysisRecords frames.length recs
    else recs

/-- The fatal-path result (lines 269-279): when an unexpected exception escapes
the batch loop itself, the function returns this single-element sentinel list
instead of raising. -/
def fatal_ocr_result (frames_paths : List String) : List OcrRecord :=
  [{ frame_number := 1, frame_path := frames_paths.headD "",
     text := "Error: OCR processing failed. Please try a different image." }]

/-! ## Frame extraction: `extract_frames_from_image` (image_processor.py) -/

/-- The Python exceptions the function can raise, by exception class and
message: `FileNotFoundError`, `ValueError` (empty source, invalid image,
no frames — the latter two share the class, distinguished only by message),
`PermissionError`. -/
inductive ExtractError where
  | fileNotFound (msg : String)
  | valueError (msg : String)
  | permissionError (msg : String)
deriving DecidableEq, Repr

/-- Environment of one `extract_frames_from_image` call: outcomes of the
filesystem probes, of `Image.open`, and of each per-frame save-and-verify. -/
structure ExtractEnv where
  image_path : String
  sourceExists : Bool
  sourceSize : Nat
  dirWritable : Bool
  probeErrMsg : String
  imageOpens : Bool
  openErrMsg : String
  framesCount : Nat
  saveOk : Nat → Bool
  framePathFor : Nat → String

/-- The mutable filesystem fact the function changes: whether the output
directory exists (`os.makedirs(output_dir, exist_ok=True)`). -/
structure FsState where
  outputDirExists : Bool
deriving DecidableEq, Repr

/-- The `frames_paths` list built by the extraction loop: frame indices in
source order, keeping exactly those whose save-and-verify succeeded (failed
frames are skipped with `continue`, not replaced by placeholders). -/
def savedFramePaths (env : ExtractEnv) : List String :=
  (List.range env.framesCount).filterMap
    (fun i => if env.saveOk i then some (env.framePathFor i) else none)

/-- `extract_frames_from_image`: source checks, directory creation, probe
write, image open, extraction loop, zero-frames check.  The zero-frames
`ValueError` is raised inside the inner `try`, so the `except` at line 137
rewraps it with the `"Invalid image file: "` prefix. -/
def extract_frames_from_image (env : ExtractEnv) (st : FsState) :
    Except ExtractError (List String) × FsState :=
  if !env.sourceExists then
    (.error (.fileNotFound ("Image file not found: " ++ env.image_path)), st)
  else if env.sourceSize = 0 then
    (.error (.valueError ("Image file is empty: " ++ env.image_path)), st)
  else
    let st1 : FsState := if st.outputDirExists then st else { outputDirExists := true }
    if !env.dirWritable then
      (.error (.permissionError ("Cannot write to output directory: " ++ env.probeErrMsg)), st1)
    else if !env.imageOpens then
      (.error (.valueError ("Invalid image file: " ++ env.openErrMsg)), st1)
    else if (savedFramePaths env).isEmpty then
      (.error (.valueError "Invalid image file: No frames could be extracted from the image"), st1)
    else
      (.ok (savedFramePaths env), st1)

/-! ## Per-frame enhancement (image_processor.py lines 90-104) -/

/-- Free representation of a PIL image: a source frame, or an enhancement
operator applied to an image with a factor given in percent. -/
inductive Img where
  | frame (id : Nat)
  | contrastE (factorPct : Nat) (i : Img)
  | sharpnessE (factorPct : Nat) (i : Img)
  | brightnessE (factorPct : Nat) (i : Img)
deriving DecidableEq, Repr

/-- Which of the three `ImageEnhance` calls raises, if any. -/
structure EnhanceTrial where
  contrastFails : Bool
  sharpnessFails : Bool
  brightnessFails : Bool
deriving DecidableEq, Repr

/-- The `try` block applying contrast ×1.5, sharpness ×1.5, brightness ×1.2 in
order; an exception leaves `frame` at the value of its last successful
reassignment, and the `except` swallows it and continues. -/
def apply_image_enhancements (t : EnhanceTrial) (frame : Img) : Img :=
  if t.contrastFails then frame
  else
    let f1 := Img.contrastE 150 frame
    if t.sharpnessFails then f1
    else
      let f2 := Img.sharpnessE 150 f1
      if t.brightnessFails then f2
      else Img.brightnessE 120 f2


/-! ## Helper lemmas -/

theorem pyMaxByLen_spec (ws : List String) (w : String) :
    (∃ pre suf, w :: ws = pre ++ pyMaxByLen w ws :: suf ∧
       ∀ y ∈ pre, y.length < (pyMaxByLen w ws).length) ∧
    ∀ y ∈ w :: ws, y.length ≤ (pyMaxByLen w ws).length := by
  induction ws generalizing w with
  | nil =>
    refine ⟨⟨[], [], rfl, by simp⟩, ?_⟩
    intro y hy
    simp only [List.mem_singleton] at hy
    simp [hy, pyMaxByLen]
  | cons x rest ih =>
    have hfold : pyMaxByLen w (x :: rest) =
        pyMaxByLen (if x.length > w.length then x else w) rest := rfl
    by_cases hx : w.length < x.length
    · rw [if_pos hx] at hfold
      obtain ⟨⟨pre, suf, heq, hpre⟩, hmax⟩ := ih x
      rw [hfold]
      refine ⟨⟨w :: pre, suf, ?_, ?_⟩, ?_⟩
      · simpa using congrArg (List.cons w) heq
      · intro y hy
        rcases List.mem_cons.mp hy with hy | hy
        · rw [hy]
          exact lt_of_lt_of_le hx (hmax x (List.mem_cons_self x rest))
        · exact hpre y hy
      · intro y hy
        rcases List.mem_cons.mp hy with hy | hy
        · rw [hy]
          exact le_of_lt (lt_of_lt_of_le hx (hmax x (List.mem_cons_self x rest)))
        · exact hmax y hy
    · rw [if_neg hx] at hfold
      have hxw : x.length ≤ w.length := Nat.le_of_not_lt hx
      obtain ⟨⟨pre, suf, heq, hpre⟩, hmax⟩ := ih w
      rw [hfold]
      cases pre with
      | nil =>
        simp only [List.nil_append] at heq
        have hw : w = pyMaxByLen w rest := ((List.cons.injEq _ _ _ _).mp heq).1
        refine ⟨⟨[], x :: rest, ?_, by simp⟩, ?_⟩
        · rw [List.nil_append, ← hw]
        · intro y hy
          rcases List.mem_cons.mp hy with hy | hy
          · rw [hy]; exact hmax w (List.mem_cons_self w rest)
          · rcases List.mem_cons.mp hy with hy | hy
            · rw [hy]
              exact le_trans hxw (hmax w (List.mem_cons_self w rest))
            · exact hmax y (List.mem_cons_of_mem w hy)
      | cons p pre₂ =>
        simp only [List.cons_append] at heq
        obtain ⟨hpw, hrest⟩ := (List.cons.injEq _ _ _ _).mp heq
        have hwlt : w.length < (pyMaxByLen w rest).length := by
          have h := hpre p (List.mem_cons_self p pre₂)
          rwa [← hpw] at h
        refine ⟨⟨w :: x :: pre₂, suf, ?_, ?_⟩, ?_⟩
        · rw [List.cons_append, List.cons_append, ← hrest]
        · intro y hy
          rcases List.mem_cons.mp hy with hy | hy
          · rw [hy]; exact hwlt
          · rcases List.mem_cons.mp hy with hy | hy
            · rw [hy]; exact lt_of_le_of_lt hxw hwlt
            · exact hpre y (List.mem_cons_of_mem p hy)
        · intro y hy
          rcases List.mem_cons.mp hy with hy | hy
          · rw [hy]; exact hmax w (List.mem_cons_self w rest)
          · rcases List.mem_cons.mp hy with hy | hy
            · rw [hy]; exact le_trans hxw (hmax w (List.mem_cons_self w rest))
            · exact hmax y (List.mem_cons_of_mem w hy)

theorem pyMaxByLen_mem (ws : List String) (w : String) : pyMaxByLen w ws ∈ w :: ws := by
  obtain ⟨⟨pre, suf, heq, -⟩, -⟩ := pyMaxByLen_spec ws w
  rw [heq]
  exact List.mem_append.mpr (Or.inr (List.mem_cons_self _ _))

theorem pyStartsWith_append (p m : String) : pyStartsWith (p ++ m) p = true := by
  have h : (p ++ m).data.take p.length = p.data := by
    rw [String.data_append]
    exact List.take_left p.data m.data
  simp [pyStartsWith, h]

theorem classifyText_of_error (t : String) (h : pyStartsWith t "Error:" = true) :
    classifyText t = TextClass.err := by
  simp [classifyText, h]

theorem classifyText_no_text : classifyText "No text detected" = TextClass.empty := by
  decide

theorem realOcrRecords_length (frames : List (String × FrameCall)) :
    (realOcrRecords frames).length = frames.length := by
  simp [realOcrRecords]

theorem realOcrRecords_get (frames : List (String × FrameCall)) (i : Nat)
    (h : i < frames.length) :
    (realOcrRecords frames).get ⟨i, by rw [realOcrRecords_length]; exact h⟩ =
      frameRecord i (frames.get ⟨i, h⟩).1 (frames.get ⟨i, h⟩).2 := by
  simp [realOcrRecords, List.getElem_enum]

theorem successCount_eq_zero (recs : List OcrRecord)
    (h : ∀ r ∈ recs, classifyText r.text ≠ TextClass.success) :
    successCount recs = 0 := by
  unfold successCount
  rw [List.length_eq_zero]
  exact List.filter_eq_nil_iff.mpr (fun r hr => by simpa using h r hr)

theorem perform_ocr_on_frames_eq (frames : List (String × FrameCall)) :
    perform_ocr_on_frames frames =
      realOcrRecords frames ++
        (if 0 < successCount (realOcrRecords frames) then
            combinedAnalysisRecords frames.length (realOcrRecords frames)
          else []) := by
  by_cases h : frames.isEmpty
  · have h0 : frames = [] := List.isEmpty_iff.mp h
    subst h0
    simp [perform_ocr_on_frames, realOcrRecords, successCount]
  · simp only [perform_ocr_on_frames, h, Bool.false_eq_true, if_false]
    split <;> simp

theorem mem_combinedAnalysisRecords (n : Nat) (recs : List OcrRecord) (r : OcrRecord)
    (h : r ∈ combinedAnalysisRecords n recs) :
    r.frame_path = "combined_analysis" ∧ r.frame_number = n + 1 := by
  unfold combinedAnalysisRecords at h
  rcases hfw : findWords (combinedText recs) with _ | ⟨w, ws⟩ <;> rw [hfw] at h
  · simp at h
  · dsimp only at h
    split at h
    · rw [List.mem_singleton] at h
      rw [h]
      exact ⟨rfl, rfl⟩
    · simp at h

theorem mem_attemptCandidate (a : AttemptResult) (c : String) (h : c ∈ attemptCandidate a) :
    c ≠ "" ∧ ∃ t : String, c = pyStrip t := by
  unfold attemptCandidate at h
  match a with
  | .raised => simp at h
  | .ok t =>
    by_cases ht : pyStrip t = "" <;> simp [ht] at h
    rw [h]
    exact ⟨ht, t, rfl⟩

theorem mem_collectResults (e : FrameEnv) (c : String) (h : c ∈ collectResults e) :
    c ≠ "" ∧ ∃ t : String, c = pyStrip t := by
  unfold collectResults at h
  rcases List.mem_append.mp h with h | h
  · rcases List.mem_append.mp h with h | h
    · exact mem_attemptCandidate e.attempt1 c h
    · exact mem_attemptCandidate e.attempt2 c h
  · exact mem_attemptCandidate e.attempt3 c h

theorem perform_ocr_on_frame_of_ok (e : FrameEnv) (ht : e.tesseractAvailable = true)
    (hu : e.unexpectedFailure = false) (hf : e.fileExists = true) (hs : e.fileSize ≠ 0)
    (ho : e.imageOpens = true) :
    perform_ocr_on_frame e =
      match collectResults e with
      | [] => "No text detected"
      | w :: ws => pyMaxByLen w ws := by
  simp [perform_ocr_on_frame, ht, hu, hf, hs, ho]

/-! ## Claim theorems: batch recognition -/

/-- C1: `perform_ocr_on_frames` emits, for every input list (including `[]`),
exactly one real record per input path in input order, with `frame_number`
exactly `1..len(paths)` and the input path as `frame_path`, regardless of the
per-frame outcome; a raising per-frame call becomes a record with the generic
error text, and anything after the real records is the synthetic
`combined_analysis` suffix. -/
theorem c1_one_record_per_path (frames : List (String × FrameCall)) :
    (perform_ocr_on_frames frames).take frames.length = realOcrRecords frames ∧
    (realOcrRecords frames).length = frames.length ∧
    (realOcrRecords frames).map OcrRecord.frame_number =
      (List.range frames.length).map (fun i => i + 1) ∧
    (realOcrRecords frames).map OcrRecord.frame_path = frames.map Prod.fst ∧
    (∀ i (h : i < frames.length),
      (frames.get ⟨i, h⟩).2 = FrameCall.raises →
        ((realOcrRecords frames).get ⟨i, by rw [realOcrRecords_length]; exact h⟩).text =
          "Error: OCR processing failed. Please try a different image.") ∧
    (∀ r ∈ (perform_ocr_on_frames frames).drop frames.length,
      r.frame_path = "combined_analysis") := by
  have hnum : ∀ p : Nat × (String × FrameCall),
      (frameRecord p.1 p.2.1 p.2.2).frame_number = p.1 + 1 := by
    rintro ⟨i, pa, c⟩; cases c <;> rfl
  have hpath : ∀ p : Nat × (String × FrameCall),
      (frameRecord p.1 p.2.1 p.2.2).frame_path = p.2.1 := by
    rintro ⟨i, pa, c⟩; cases c <;> rfl
  refine ⟨?_, realOcrRecords_length frames, ?_, ?_, ?_, ?_⟩
  · rw [perform_ocr_on_frames_eq, ← realOcrRecords_length frames]
    exact List.take_left _ _
  · simp only [realOcrRecords, List.map_map, Function.comp_def, hnum]
    rw [← List.enum_map_fst frames, List.map_map]
    rfl
  · simp only [realOcrRecords, List.map_map, Function.comp_def, hpath]
    have h2 : frames.map Prod.fst = (frames.enum.map Prod.snd).map Prod.fst := by
      rw [List.enum_map_snd]
    rw [h2, List.map_map]
    rfl
  · intro i h hr
    rw [realOcrRecords_get frames i h, hr]
    rfl
  · rw [perform_ocr_on_frames_eq, ← realOcrRecords_length frames, List.drop_left]
    intro r hr
    split at hr
    · exact (mem_combinedAnalysisRecords _ _ r hr).1
    · simp at hr

/-- C1 witness: on a two-frame batch whose second per-frame call raises, the
second real record carries the generic error text. -/
theorem c1_witness :
    ((realOcrRecords [("a.jpg", FrameCall.returns "hi"), ("b.jpg", FrameCall.raises)]).get
        ⟨1, by rw [realOcrRecords_length]; decide⟩).text =
      "Error: OCR processing failed. Please try a different image." :=
  (c1_one_record_per_path
    [("a.jpg", FrameCall.returns "hi"), ("b.jpg", FrameCall.raises)]).2.2.2.2.1 1 (by decide) rfl

/-- Input of the spec's aggregation example: per-frame texts
`["AB", "C123 extra", "nothing"]`. -/
def c3Frames : List (String × FrameCall) :=
  [("frame1.jpg", FrameCall.returns "AB"), ("frame2.jpg", FrameCall.returns "C123 extra"),
   ("frame3.jpg", FrameCall.returns "nothing")]

/-- C3 counterexample: on per-frame texts `["AB", "C123 extra", "nothing"]` the
code classifies `"nothing"` as a success too, so the combined scan runs over
`"AB C123 extra nothing"` and the longest run is `nothing` (length 7), not
`C123`: no record with text `"Combined analysis: Found text pattern 'C123'"`
is ever appended. -/
theorem c3_counterexample :
    (perform_ocr_on_frames c3Frames).map OcrRecord.text =
      ["AB", "C123 extra", "nothing", "Combined analysis: Found text pattern 'nothing'"] ∧
    ¬ ∃ r ∈ perform_ocr_on_frames c3Frames,
        r.text = "Combined analysis: Found text pattern 'C123'" := by
  constructor <;> decide

/-- C3 amended: on per-frame texts `["AB", "C123 extra", "nothing"]` the
aggregation appends exactly one synthetic trailing record with
`frame_number = len(paths) + 1` and text
`"Combined analysis: Found text pattern 'nothing'"` (the combined scan runs
over all success texts, `"AB C123 extra nothing"`, and picks the longest run
of length ≥ 4, ties broken by first occurrence). -/
theorem c3_amended :
    perform_ocr_on_frames c3Frames =
      realOcrRecords c3Frames ++
        [{ frame_number := c3Frames.length + 1, frame_path := "combined_analysis",
           text := "Combined analysis: Found text pattern 'nothing'" }] ∧
    c3Frames.length + 1 = 4 := by
  constructor <;> decide

/-- C4: the batch call never raises: a raising per-frame call is recorded as a
sentinel-error record at its position, and the sole fatal case returns the
single-element sentinel-error list `fatal_ocr_result` — never an empty list
and never an exception. -/
theorem c4_never_raises (frames : List (String × FrameCall)) (ps : List String)
    (i : Nat) (h : i < frames.length) (hr : (frames.get ⟨i, h⟩).2 = FrameCall.raises) :
    ((realOcrRecords frames).get ⟨i, by rw [realOcrRecords_length]; exact h⟩).text =
      "Error: OCR processing failed. Please try a different image." ∧
    fatal_ocr_result ps ≠ [] ∧
    (fatal_ocr_result ps).length = 1 ∧
    (fatal_ocr_result ps).map OcrRecord.text =
      ["Error: OCR processing failed. Please try a different image."] := by
  refine ⟨?_, by simp [fatal_ocr_result], rfl, rfl⟩
  rw [realOcrRecords_get frames i h, hr]
  rfl

/-- C4 witness: the fatal-path result for a one-path input is a one-element
list. -/
theorem c4_witness : (fatal_ocr_result ["a.jpg"]).length = 1 :=
  (c4_never_raises [("a.jpg", FrameCall.raises)] ["a.jpg"] 0 (by decide) rfl).2.2.1

/-- C7: if every real record's text is `"No text detected"` or
`Error:`-prefixed (no success), no synthetic `combined_analysis` record is
appended: the batch returns exactly the real per-frame records. -/
theorem c7_no_aggregation (frames : List (String × FrameCall))
    (h : ∀ r ∈ realOcrRecords frames,
      r.text = "No text detected" ∨ pyStartsWith r.text "Error:" = true) :
    perform_ocr_on_frames frames = realOcrRecords frames := by
  have hz : successCount (realOcrRecords frames) = 0 := by
    apply successCount_eq_zero
    intro r hr
    rcases h r hr with h1 | h1
    · rw [h1, classifyText_no_text]
      simp
    · rw [classifyText_of_error r.text h1]
      simp
  rw [perform_ocr_on_frames_eq, hz]
  simp

/-- C7 witness: a batch whose records are one `"No text detected"` and one
raising frame gets no synthetic record. -/
theorem c7_witness :
    perform_ocr_on_frames
        [("a.jpg", FrameCall.returns "No text detected"), ("b.jpg", FrameCall.raises)] =
      realOcrRecords
        [("a.jpg", FrameCall.returns "No text detected"), ("b.jpg", FrameCall.raises)] :=
  c7_no_aggregation
    [("a.jpg", FrameCall.returns "No text detected"), ("b.jpg", FrameCall.raises)] (by decide)

/-! ## Claim theorems: per-frame recognition -/

theorem classifyText_empty_cases (t : String) (h : classifyText t = TextClass.empty) :
    t = "" ∨ t = "No text detected" := by
  unfold classifyText at h
  split at h
  · cases h
  · split at h
    · next hc => simpa using hc
    · cases h

theorem pyStartsWith_invalid_image (m : String) :
    pyStartsWith ("Error: Invalid image file: " ++ m) "Error:" = true := by
  have h : "Error: Invalid image file: " ++ m =
      "Error:" ++ (" Invalid image file: " ++ m) := by
    rw [← String.append_assoc]
    congr 1
  rw [h]
  exact pyStartsWith_append "Error:" (" Invalid image file: " ++ m)

/-- C2: with all preconditions passing, the per-frame result on a non-empty
candidate pool is the longest trimmed candidate, earliest attempt winning
ties (the result splits the pool as `pre ++ result :: suf` with every earlier
candidate strictly shorter and every candidate no longer); every candidate is
a non-empty trimmed string; an empty pool yields exactly `"No text detected"`;
and attempts `("", "ab", "ab")` yield the attempt-2 value `"ab"`. -/
theorem c2_selection_rule (e : FrameEnv) (ht : e.tesseractAvailable = true)
    (hu : e.unexpectedFailure = false) (hf : e.fileExists = true)
    (hs : e.fileSize ≠ 0) (ho : e.imageOpens = true) :
    (∀ c ∈ collectResults e, c ≠ "" ∧ ∃ t : String, c = pyStrip t) ∧
    (∀ w ws, collectResults e = w :: ws →
      (∃ pre suf, w :: ws = pre ++ perform_ocr_on_frame e :: suf ∧
         ∀ y ∈ pre, y.length < (perform_ocr_on_frame e).length) ∧
      ∀ y ∈ w :: ws, y.length ≤ (perform_ocr_on_frame e).length) ∧
    (collectResults e = [] → perform_ocr_on_frame e = "No text detected") ∧
    (e.attempt1 = AttemptResult.ok "" → e.attempt2 = AttemptResult.ok "ab" →
      e.attempt3 = AttemptResult.ok "ab" → perform_ocr_on_frame e = "ab") := by
  have hok := perform_ocr_on_frame_of_ok e ht hu hf hs ho
  refine ⟨fun c hc => mem_collectResults e c hc, ?_, ?_, ?_⟩
  · intro w ws hcw
    rw [hok, hcw]
    exact pyMaxByLen_spec ws w
  · intro hnil
    rw [hok, hnil]
  · intro h1 h2 h3
    have hc : collectResults e = ["ab", "ab"] := by
      rw [collectResults, h1, h2, h3]
      decide
    rw [hok, hc]
    decide

/-- C2 witness: a concrete environment with attempts `("", "ab", "ab")`
returns `"ab"`. -/
theorem c2_witness :
    perform_ocr_on_frame
        { tesseractAvailable := true, unexpectedFailure := false, fileExists := true,
          fileSize := 5, imageOpens := true, openErrMsg := "",
          attempt1 := AttemptResult.ok "", attempt2 := AttemptResult.ok "ab",
          attempt3 := AttemptResult.ok "ab" } = "ab" :=
  (c2_selection_rule
      { tesseractAvailable := true, unexpectedFailure := false, fileExists := true,
        fileSize := 5, imageOpens := true, openErrMsg := "",
        attempt1 := AttemptResult.ok "", attempt2 := AttemptResult.ok "ab",
        attempt3 := AttemptResult.ok "ab" }
      rfl rfl rfl (by decide) rfl).2.2.2 rfl rfl rfl

/-- C6: any precondition failure (engine probe, missing frame file, empty
frame file) yields an `Error:`-prefixed sentinel, and the result does not
depend on the recognition attempts (none is consulted). -/
theorem c6_precondition_failures (e : FrameEnv)
    (h : e.tesseractAvailable = false ∨ e.fileExists = false ∨ e.fileSize = 0) :
    pyStartsWith (perform_ocr_on_frame e) "Error:" = true ∧
    ∀ a1 a2 a3 : AttemptResult,
      perform_ocr_on_frame { e with attempt1 := a1, attempt2 := a2, attempt3 := a3 } =
        perform_ocr_on_frame e := by
  constructor
  · rcases h with h | h | h
    · simp [perform_ocr_on_frame, h]
      decide
    · cases ht : e.tesseractAvailable <;> cases hu : e.unexpectedFailure <;>
        simp [perform_ocr_on_frame, h, ht, hu] <;> decide
    · cases ht : e.tesseractAvailable <;> cases hu : e.unexpectedFailure <;>
        cases hf : e.fileExists <;>
        simp [perform_ocr_on_frame, h, ht, hu, hf] <;> decide
  · intro a1 a2 a3
    rcases h with h | h | h
    · simp [perform_ocr_on_frame, h]
    · cases ht : e.tesseractAvailable <;> cases hu : e.unexpectedFailure <;>
        simp [perform_ocr_on_frame, h, ht, hu]
    · cases ht : e.tesseractAvailable <;> cases hu : e.unexpectedFailure <;>
        cases hf : e.fileExists <;> simp [perform_ocr_on_frame, h, ht, hu, hf]

/-- C6 witness: with the engine probe failing, the result is `Error:`-prefixed. -/
theorem c6_witness :
    pyStartsWith
        (perform_ocr_on_frame
          { tesseractAvailable := false, unexpectedFailure := false, fileExists := true,
            fileSize := 5, imageOpens := true, openErrMsg := "",
            attempt1 := AttemptResult.ok "xyz", attempt2 := AttemptResult.raised,
            attempt3 := AttemptResult.raised }) "Error:" = true :=
  (c6_precondition_failures
      { tesseractAvailable := false, unexpectedFailure := false, fileExists := true,
        fileSize := 5, imageOpens := true, openErrMsg := "",
        attempt1 := AttemptResult.ok "xyz", attempt2 := AttemptResult.raised,
        attempt3 := AttemptResult.raised } (Or.inl rfl)).1

/-- C9: the per-frame result is never the empty string: it is `Error:`-prefixed,
exactly `"No text detected"`, or a non-empty trimmed recognition result; hence
the batch classifier can only classify it as empty via `"No text detected"`. -/
theorem c9_never_empty_string (e : FrameEnv) :
    perform_ocr_on_frame e ≠ "" ∧
    (pyStartsWith (perform_ocr_on_frame e) "Error:" = true ∨
      perform_ocr_on_frame e = "No text detected" ∨
      ∃ t : String, perform_ocr_on_frame e = pyStrip t ∧ pyStrip t ≠ "") ∧
    (classifyText (perform_ocr_on_frame e) = TextClass.empty →
      perform_ocr_on_frame e = "No text detected") := by
  have hD : pyStartsWith (perform_ocr_on_frame e) "Error:" = true ∨
      perform_ocr_on_frame e = "No text detected" ∨
      ∃ t : String, perform_ocr_on_frame e = pyStrip t ∧ pyStrip t ≠ "" := by
    unfold perform_ocr_on_frame
    split
    · left; decide
    split
    · left; decide
    split
    · left; decide
    split
    · left; decide
    split
    · left
      exact pyStartsWith_invalid_image e.openErrMsg
    · split
      · right; left; rfl
      · next w ws hcw =>
        right; right
        have hmem : pyMaxByLen w ws ∈ collectResults e := by
          rw [hcw]
          exact pyMaxByLen_mem ws w
        obtain ⟨hne, t, htrim⟩ := mem_collectResults e _ hmem
        exact ⟨t, htrim, by rw [← htrim]; exact hne⟩
  have hne : perform_ocr_on_frame e ≠ "" := by
    rcases hD with h | h | h
    · intro hc
      rw [hc] at h
      exact absurd h (by decide)
    · rw [h]
      decide
    · obtain ⟨t, heq, hnz⟩ := h
      rw [heq]
      exact hnz
  refine ⟨hne, hD, ?_⟩
  intro hcl
  rcases classifyText_empty_cases _ hcl with h | h
  · exact absurd h hne
  · exact h

/-- C9 witness: with all attempts failing, the result is the non-empty
sentinel `"No text detected"`, the only empty-classified value. -/
theorem c9_witness :
    perform_ocr_on_frame
        { tesseractAvailable := true, unexpectedFailure := false, fileExists := true,
          fileSize := 9, imageOpens := true, openErrMsg := "",
          attempt1 := AttemptResult.raised, attempt2 := AttemptResult.raised,
          attempt3 := AttemptResult.raised } = "No text detected" :=
  (c9_never_empty_string
      { tesseractAvailable := true, unexpectedFailure := false, fileExists := true,
        fileSize := 9, imageOpens := true, openErrMsg := "",
        attempt1 := AttemptResult.raised, attempt2 := AttemptResult.raised,
        attempt3 := AttemptResult.raised }).2.2 (by decide)

/-! ## Claim theorems: frame extraction -/

/-- Environment of a non-empty, existing, unopenable source with a writable
output directory: none of the spec's four failure conditions holds, yet the
call fails. -/
def c5Env : ExtractEnv :=
  { image_path := "anim.gif", sourceExists := true, sourceSize := 2048,
    dirWritable := true, probeErrMsg := "", imageOpens := false,
    openErrMsg := "cannot identify image file", framesCount := 0,
    saveOk := fun _ => false, framePathFor := fun i => "frame" ++ toString i }

/-- C5 counterexample: a source that exists, is non-empty, has a writable
output directory and never opens (so none of NotFound / EmptySource /
PermissionDenied / NoFramesExtracted applies — the last requires the source
to have opened) still fails, with the fifth, unlisted error
`ValueError("Invalid image file: ...")`; so "succeeds otherwise" is false. -/
theorem c5_counterexample :
    c5Env.sourceExists = true ∧ c5Env.sourceSize ≠ 0 ∧ c5Env.dirWritable = true ∧
    c5Env.imageOpens = false ∧
    (extract_frames_from_image c5Env { outputDirExists := true }).1 =
      Except.error (ExtractError.valueError "Invalid image file: cannot identify image file") := by
  refine ⟨rfl, by decide, rfl, rfl, ?_⟩
  rfl

/-- C5 amended: the checks run in order — missing source raises
`FileNotFoundError`, a zero-byte source `ValueError(empty)`, a failed probe
write `PermissionError`, an unopenable source
`ValueError("Invalid image file: <open error>")`; a source that opened but
produced zero saved frames raises (after frame processing, wrapped by the
image-error handler) `ValueError("Invalid image file: No frames could be
extracted from the image")`; otherwise the call succeeds with the saved frame
paths. -/
theorem c5_amended (env : ExtractEnv) (st : FsState) :
    (env.sourceExists = false →
      (extract_frames_from_image env st).1 =
        Except.error (ExtractError.fileNotFound ("Image file not found: " ++ env.image_path))) ∧
    (env.sourceExists = true → env.sourceSize = 0 →
      (extract_frames_from_image env st).1 =
        Except.error (ExtractError.valueError ("Image file is empty: " ++ env.image_path))) ∧
    (env.sourceExists = true → env.sourceSize ≠ 0 → env.dirWritable = false →
      (extract_frames_from_image env st).1 =
        Except.error (ExtractError.permissionError
          ("Cannot write to output directory: " ++ env.probeErrMsg))) ∧
    (env.sourceExists = true → env.sourceSize ≠ 0 → env.dirWritable = true →
      env.imageOpens = false →
      (extract_frames_from_image env st).1 =
        Except.error (ExtractError.valueError ("Invalid image file: " ++ env.openErrMsg))) ∧
    (env.sourceExists = true → env.sourceSize ≠ 0 → env.dirWritable = true →
      env.imageOpens = true → savedFramePaths env = [] →
      (extract_frames_from_image env st).1 =
        Except.error (ExtractError.valueError
          "Invalid image file: No frames could be extracted from the image")) ∧
    (env.sourceExists = true → env.sourceSize ≠ 0 → env.dirWritable = true →
      env.imageOpens = true → savedFramePaths env ≠ [] →
      (extract_frames_from_image env st).1 = Except.ok (savedFramePaths env)) := by
  refine ⟨?_, ?_, ?_, ?_, ?_, ?_⟩ <;> intros <;>
    simp_all [extract_frames_from_image, List.isEmpty_iff]

/-- C5 witness: the amended characterization at the unopenable-source
environment. -/
theorem c5_witness :
    (extract_frames_from_image c5Env { outputDirExists := true }).1 =
      Except.error (ExtractError.valueError ("Invalid image file: " ++ c5Env.openErrMsg)) :=
  (c5_amended c5Env { outputDirExists := true }).2.2.2.1 rfl (by decide) rfl rfl

/-- C10: with a valid source, the function creates the missing output
directory and proceeds: the final state has the directory existing, the
result does not depend on whether the directory initially existed, a missing
directory alone never produces a PermissionDenied or NotFound failure when
the probe write succeeds, and the writability probe still runs (and fails)
after the creation step when the directory is not writable. -/
theorem c10_creates_output_dir (env : ExtractEnv) (st : FsState)
    (h1 : env.sourceExists = true) (h2 : env.sourceSize ≠ 0) :
    (extract_frames_from_image env st).2.outputDirExists = true ∧
    ((extract_frames_from_image env { outputDirExists := false }).1 =
      (extract_frames_from_image env { outputDirExists := true }).1) ∧
    (env.dirWritable = true →
      ∀ m : String,
        (extract_frames_from_image env { outputDirExists := false }).1 ≠
            Except.error (ExtractError.permissionError m) ∧
        (extract_frames_from_image env { outputDirExists := false }).1 ≠
            Except.error (ExtractError.fileNotFound m)) ∧
    (env.dirWritable = false →
      (extract_frames_from_image env { outputDirExists := false }).1 =
        Except.error (ExtractError.permissionError
          ("Cannot write to output directory: " ++ env.probeErrMsg))) := by
  refine ⟨?_, ?_, ?_, ?_⟩
  · obtain ⟨b⟩ := st
    cases b <;> cases hw : env.dirWritable <;> cases ho : env.imageOpens <;>
      by_cases hf : (savedFramePaths env).isEmpty <;>
      simp [extract_frames_from_image, h1, h2, hw, ho, hf]
  · simp [extract_frames_from_image, h1, h2]
  · intro hw m
    cases ho : env.imageOpens
    · simp [extract_frames_from_image, h1, h2, hw, ho]
    · by_cases hf : (savedFramePaths env).isEmpty <;>
        simp [extract_frames_from_image, h1, h2, hw, ho, hf]
  · intro hw
    simp [extract_frames_from_image, h1, h2, hw]

/-- Environment of a fully valid one-frame extraction whose output directory
does not yet exist. -/
def c10Env : ExtractEnv :=
  { image_path := "a.gif", sourceExists := true, sourceSize := 7,
    dirWritable := true, probeErrMsg := "", imageOpens := true, openErrMsg := "",
    framesCount := 1, saveOk := fun _ => true,
    framePathFor := fun i => "out/frame" ++ toString i ++ ".jpg" }

/-- C10 witness: extraction from a missing output directory leaves the
directory created. -/
theorem c10_witness :
    (extract_frames_from_image c10Env { outputDirExists := false }).2.outputDirExists = true :=
  (c10_creates_output_dir c10Env { outputDirExists := false } rfl (by decide)).1

/-- C8 counterexample: in a run where only the sharpness pass fails, the loop
continues with the contrast-enhanced frame, not with the frame in its
pre-enhancement state. -/
theorem c8_counterexample :
    ({ contrastFails := false, sharpnessFails := true,
        brightnessFails := false } : EnhanceTrial).sharpnessFails = true ∧
    apply_image_enhancements
        { contrastFails := false, sharpnessFails := true, brightnessFails := false }
        (Img.frame 0) = Img.contrastE 150 (Img.frame 0) ∧
    apply_image_enhancements
        { contrastFails := false, sharpnessFails := true, brightnessFails := false }
        (Img.frame 0) ≠ Img.frame 0 := by
  refine ⟨rfl, rfl, by decide⟩

/-- C8 amended: the three passes run in fixed order contrast ×1.5, sharpness
×1.5, brightness ×1.2; a failing pass is non-fatal and the extractor
continues with the frame in the state produced by the passes that had already
succeeded (original frame only when the very first pass fails). -/
theorem c8_amended (t : EnhanceTrial) (frame : Img) :
    (t.contrastFails = false → t.sharpnessFails = false → t.brightnessFails = false →
      apply_image_enhancements t frame =
        Img.brightnessE 120 (Img.sharpnessE 150 (Img.contrastE 150 frame))) ∧
    (t.contrastFails = true → apply_image_enhancements t frame = frame) ∧
    (t.contrastFails = false → t.sharpnessFails = true →
      apply_image_enhancements t frame = Img.contrastE 150 frame) ∧
    (t.contrastFails = false → t.sharpnessFails = false → t.brightnessFails = true →
      apply_image_enhancements t frame = Img.sharpnessE 150 (Img.contrastE 150 frame)) := by
  refine ⟨?_, ?_, ?_, ?_⟩ <;> intros <;> simp_all [apply_image_enhancements]

/-- C8 witness: with no pass failing, the three enhancements are applied in
order. -/
theorem c8_witness :
    apply_image_enhancements
        { contrastFails := false, sharpnessFails := false, brightnessFails := false }
        (Img.frame 7) =
      Img.brightnessE 120 (Img.sharpnessE 150 (Img.contrastE 150 (Img.frame 7))) :=
  (c8_amended
      { contrastFails := false, sharpnessFails := false, brightnessFails := false }
      (Img.frame 7)).1 rfl rfl rfl

end GifOcr
